import Mathlib

/-!
Verification of the replay decoding core of the warthog repository.

The development shallowly embeds the Python sources
`src/replay_data_grabber/services/replay_parser_service.py` and
`src/replay_data_explorer/services/battle_rating_tier_classifier.py`:

* raw replay bytes are `List Nat` (each entry one byte value);
* Python floats are modelled as rationals `ℚ`, with `round(x, 2)`
  modelled by exact round-half-to-even on hundredths (`pyRound2`);
* strings coming out of the external blk decoder are Lean `String`s,
  while strings decoded from the fixed binary header are kept as the
  byte lists the decoder actually slices (the final
  `bytes.decode("utf-8", errors="ignore")` step is a representation
  change that none of the verified properties depend on);
* Python exceptions are modelled by `Except ParseError`; dictionary
  keys that may be absent are `Option` fields read with `Option.getD`,
  mirroring `dict.get(key, default)`;
* the two injected collaborators are parameters: the vehicle catalog
  (`VehicleService.get_vehicles_by_internal_name` at the fixed
  `search_datetime` passed by the parser, i.e. the match start time)
  is a function `String → Option Vehicle`, and the external blk
  decoder (`WtExtCliClientService.unpack_raw_blk`) is a function
  `List Nat → Except Unit Results`.
-/

/-- Raw replay bytes: one `Nat` (0..255) per byte. -/
abbrev Bytes := List Nat

/-- Little-endian value of a byte list (first byte least significant),
as used by `struct.unpack("<I", ...)` and `struct.unpack("<Q", ...)`. -/
def leNat : List Nat → Nat
  | [] => 0
  | b :: rest => b + 256 * leNat rest

/-- `struct.unpack("<I", data[off : off + 4])`: fails (struct.error)
unless the slice has the full 4 bytes. -/
def readU32 (data : Bytes) (off : Nat) : Option Nat :=
  if off + 4 ≤ data.length then some (leNat ((data.drop off).take 4)) else none

/-- `struct.unpack("<Q", data[off : off + 8])`: fails unless the slice
has the full 8 bytes. -/
def readU64 (data : Bytes) (off : Nat) : Option Nat :=
  if off + 8 ≤ data.length then some (leNat ((data.drop off).take 8)) else none

/-- `data[off]`: a single byte, IndexError when out of range. -/
def readByte (data : Bytes) (off : Nat) : Option Nat :=
  if off < data.length then some (data.getD off 0) else none

/-- `bytes.find(b"\x00")`: index of the first null byte, if any. -/
def findNull : List Nat → Option Nat
  | [] => none
  | b :: rest => if b == 0 then some 0 else (findNull rest).map (fun i => i + 1)

/-- `ReplayParserService._read_string`: slice `data[off : off + len]`,
cut at the first null byte if one is present.  The Python code then
decodes the bytes as UTF-8 with `errors="ignore"` and applies no other
transformation; in particular no whitespace trimming happens. -/
def readString (data : Bytes) (off len : Nat) : List Nat :=
  let string_data := (data.drop off).take len
  match findNull string_data with
  | some i => string_data.take i
  | none => string_data

/-- Does `l` start with `pat`? (helper for Python `str.replace` and
for the substring test of Python's `in` operator). -/
def startsWith [BEq α] : List α → List α → Bool
  | _, [] => true
  | [], _ :: _ => false
  | h :: t, p :: q => h == p && startsWith t q

/-- Python's `needle in hay`: contiguous subsequence containment. -/
def containsSeq [BEq α] (hay needle : List α) : Bool :=
  match hay with
  | [] => needle.isEmpty
  | _ :: t => startsWith hay needle || containsSeq t needle

/-- Structural worker for Python `str.replace`: `fuel` only bounds the
recursion (every call site keeps `fuel ≥ l.length`, and each step
consumes at least one element of `l` while spending at most one unit
of fuel, so the `fuel = 0, l ≠ []` fallback is never reached). -/
def replaceAllFuel (pat rep : List Nat) : Nat → List Nat → List Nat
  | _, [] => []
  | 0, l => l
  | fuel + 1, h :: t =>
    if pat ≠ [] ∧ startsWith (h :: t) pat then
      rep ++ replaceAllFuel pat rep fuel ((h :: t).drop pat.length)
    else
      h :: replaceAllFuel pat rep fuel t

/-- Python `str.replace(pat, rep)`: replace every (left-to-right,
non-overlapping) occurrence of `pat` by `rep`.  The parser only uses
it with the non-empty patterns "levels/" and ".bin". -/
def replaceAll (l pat rep : List Nat) : List Nat :=
  replaceAllFuel pat rep l.length l

/-- `BattleType` (src/enums/battle_type.py); also the difficulty
classification decoded from the header's difficulty byte. -/
inductive BattleType
  | arcade
  | realistic
  | simulation
  | unknown
deriving DecidableEq

/-- `PlatformType` (src/enums/platform_type.py). -/
inductive PlatformType
  | pc
  | xboxlive
  | psn
deriving DecidableEq

/-- `Country` (src/common/enums/country.py), in declaration order. -/
inductive Country
  | china
  | france
  | germany
  | israel
  | italy
  | japan
  | russia
  | sweden
  | uk
  | usa
deriving DecidableEq

/-- `BattleRatingTier` (src/replay_data_explorer/enums/battle_rating_tier.py).
The source constructor names are DOWNTIER, PARTIAL_DOWNTIER, BALANCED,
PARTIAL_UPTIER and UPTIER; the two middle tiers are named
`semiDowntier` and `semiUptier` here. -/
inductive BattleRatingTier
  | downtier
  | semiDowntier
  | balanced
  | semiUptier
  | uptier
deriving DecidableEq

/-- Round a rational to the nearest integer, ties to the even integer
(the rounding Python's builtin `round` performs). -/
def roundHalfEven (q : ℚ) : ℤ :=
  let f := q.floor
  let r := q - (f : ℚ)
  if r < 1 / 2 then f
  else if r > 1 / 2 then f + 1
  else if f % 2 = 0 then f else f + 1

/-- Python `round(q, 2)`: round to 2 decimal places, ties to even. -/
def pyRound2 (q : ℚ) : ℚ := (roundHalfEven (q * 100) : ℚ) / 100

/-- `BattleRatingTierClassifier.get_battle_rating_tier_from_delta`:
the if/elif chain of the source, on the (already rounded) delta. -/
def get_battle_rating_tier_from_delta (delta : ℚ) : BattleRatingTier :=
  if delta ≥ 0 then .downtier
  else if 0 > delta ∧ delta > -0.4 then .semiDowntier
  else if -0.4 ≥ delta ∧ delta ≥ -0.6 then .balanced
  else if -0.6 > delta ∧ delta > -1.0 then .semiUptier
  else .uptier

/-- `BattleRatingTierClassifier.get_battle_rating_tier`:
`delta = round(player.battle_rating - replay.battle_rating, 2)`, then
classify the delta. -/
def get_battle_rating_tier (player_battle_rating replay_battle_rating : ℚ) :
    BattleRatingTier :=
  get_battle_rating_tier_from_delta
    (pyRound2 (player_battle_rating - replay_battle_rating))

/-- Python `str.lower()` (ASCII case folding suffices for the
constant needles used by the parser). -/
def pyLower (s : String) : String := ⟨s.data.map Char.toLower⟩

/-- Python's case-sensitive `needle in hay` on strings. -/
def strContains (hay needle : String) : Bool := containsSeq hay.data needle.data

/-- `username.split("@")[0]`: the characters before the first "@". -/
def takeBeforeAt (s : String) : String := ⟨s.data.takeWhile (fun c => c != '@')⟩

/-- Python `str.strip()`: drop leading and trailing whitespace. -/
def pyStrip (s : String) : String :=
  ⟨((s.data.dropWhile Char.isWhitespace).reverse.dropWhile Char.isWhitespace).reverse⟩

/-- Whitespace bytes, for the trimming the spec describes for header
string fields (ASCII whitespace as Python `str.strip` would drop). -/
def isSpaceByte (b : Nat) : Bool :=
  b == 32 || b == 9 || b == 10 || b == 11 || b == 12 || b == 13

/-- Modelled from the spec: the claimed trimming of a decoded header
string field ("interpreted as text up to the first null byte ...,
then trimmed").  The source's `_read_string` applies no such step. -/
def trimBytes (l : List Nat) : List Nat :=
  ((l.dropWhile isSpaceByte).reverse.dropWhile isSpaceByte).reverse

/-- `Country.get_country_by_name`: strip and lowercase the name, then
test each country display name for case-insensitive substring
containment in declaration order, with the two aliases "britain" and
"ussr" checked afterwards; no match returns nothing (the source
raises ValueError). -/
def get_country_by_name (name : String) : Option Country :=
  let n := pyLower (pyStrip name)
  if strContains n "china" then some .china
  else if strContains n "france" then some .france
  else if strContains n "germany" then some .germany
  else if strContains n "israel" then some .israel
  else if strContains n "italy" then some .italy
  else if strContains n "japan" then some .japan
  else if strContains n "russia" then some .russia
  else if strContains n "sweden" then some .sweden
  else if strContains n "uk" then some .uk
  else if strContains n "usa" then some .usa
  else if strContains n "britain" then some .uk
  else if strContains n "ussr" then some .russia
  else none

/-- The error taxonomy of the decode, naming each distinct failure of
`parse_replay_data` (in the source all of them are raised exceptions:
ValueError for the magic number, struct.error/IndexError for reads
past the end of the buffer, ValueError for platform, country and
battle-type resolution, TypeError from `max`/`min`/`mean` on an empty
rating list, and StopIteration from the author lookup). -/
inductive ParseError
  | invalidFormat
  | truncated
  | unknownPlatform
  | unknownCountry
  | unknownBattleType
  | emptyRatings
  | authorNotFound
deriving DecidableEq

/-- Per-mode battle ratings of a catalog vehicle
(src/common/models/vehicle_models/battle_rating.py). -/
structure BattleRating where
  arcade : ℚ
  realistic : ℚ
  simulation : ℚ
deriving DecidableEq

/-- The slice of a catalog vehicle the parser reads. -/
structure Vehicle where
  battle_rating : BattleRating
  is_premium : Bool
deriving DecidableEq

/-- The vehicle catalog collaborator:
`VehicleService.get_vehicles_by_internal_name` with `search_datetime`
fixed to the match start time (point-in-time snapshot). -/
abbrev Catalog := String → Option Vehicle

/-- `VehicleService.is_vehicle_premium`: true iff any name in the
lineup resolves to a premium vehicle. -/
def is_vehicle_premium (catalog : Catalog) (vehicle_internal_names : List String) :
    Bool :=
  vehicle_internal_names.any (fun internal_name =>
    match catalog internal_name with
    | some vehicle => vehicle.is_premium
    | none => false)

/-- Kill statistics of a player
(src/replay_data_grabber/models/kills.py). -/
structure Kills where
  air : Int
  ground : Int
  naval : Int
  team : Int
  ai_air : Int
  ai_ground : Int
  ai_naval : Int
deriving DecidableEq

/-- A fully built participant (the fields `_create_player_from_json`
assigns on the `Player` model). -/
structure Player where
  user_id : String
  username : String
  squadron_id : Option String
  squadron_tag : Option String
  platform : String
  platform_type : PlatformType
  country : Country
  team : Option Int
  squad : Option Int
  auto_squad : Bool
  tier : Option Int
  rank : Option Int
  m_rank : Option Int
  wait_time : ℚ
  battle_rating : ℚ
  min_battle_rating : ℚ
  mean_battle_rating : ℚ
  kills : Kills
  assists : Int
  deaths : Int
  capture_zone : Int
  damage_zone : Int
  score : Int
  award_damage : Int
  missile_evades : Int
  lineup : List String
  is_premium : Bool
deriving DecidableEq

/-- One entry of the blob's nested identity table
(`results["uiScriptsData"]["playersInfo"]`); every field may be
absent, mirroring `dict.get`. -/
structure PlayerInfo where
  id : Option String := none
  clanId : Option String := none
  clanTag : Option String := none
  name : Option String := none
  platform : Option String := none
  country : Option String := none
  crafts : List (String × String) := []
  tier : Option Int := none
  rank : Option Int := none
  mrank : Option Int := none
  wait_time : Option ℚ := none
deriving DecidableEq

/-- One flat per-participant stat row (`results["player"]`). -/
structure PlayerData where
  userId : Option String := none
  team : Option Int := none
  squadId : Option Int := none
  autoSquad : Option Int := none
  kills : Option Int := none
  groundKills : Option Int := none
  navalKills : Option Int := none
  teamKills : Option Int := none
  aiKills : Option Int := none
  aiGroundKills : Option Int := none
  aiNavalKills : Option Int := none
  assists : Option Int := none
  deaths : Option Int := none
  captureZone : Option Int := none
  damageZone : Option Int := none
  score : Option Int := none
  awardDamage : Option Int := none
  missileEvades : Option Int := none
deriving DecidableEq

/-- `results["uiScriptsData"]`, of which the parser only reads the
`playersInfo` table (a string-keyed mapping, kept in iteration
order). -/
structure UiScriptsData where
  playersInfo : Option (List (String × PlayerInfo)) := none
deriving DecidableEq

/-- The associative structure returned by the external blk decoder;
the parser reads these five keys of it. -/
structure Results where
  status : Option String := none
  timePlayed : Option ℚ := none
  player : Option (List PlayerData) := none
  uiScriptsData : Option UiScriptsData := none
  authorUserId : Option String := none
deriving DecidableEq

/-- The empty associative structure (`results = {}`). -/
def emptyResults : Results := {}

/-- The external blk decoder collaborator
(`WtExtCliClientService.unpack_raw_blk`): raw bytes in, associative
structure out, or any exception (non-zero exit, timeout, malformed
output). -/
abbrev BlkDecoder := Bytes → Except Unit Results

/-- The platform branch of `_create_player_from_json`: ordered
case-insensitive substring tests on the raw platform string.  In the
source each successful branch also assigns
`username = username.split("@")[0]` (identically in all six
branches) and the final `else` raises ValueError. -/
def resolvePlatform (platform : String) : Option PlatformType :=
  if strContains (pyLower platform) "xbox" then some .xboxlive
  else if strContains (pyLower platform) "ps" then some .psn
  else if strContains (pyLower platform) "win" then some .pc
  else if strContains (pyLower platform) "mac" then some .pc
  else if strContains (pyLower platform) "linux" then some .pc
  else if strContains (pyLower platform) "pc" then some .pc
  else none

/-- The per-vehicle rating-selection loop of
`_get_transformed_player_battle_rating`: for each resolved vehicle,
take the rating field matching the battle type; an unknown battle
type raises at the first vehicle. -/
def modeRatingsE (battle_type : BattleType) :
    List Vehicle → Except ParseError (List ℚ)
  | [] => .ok []
  | vehicle :: rest => do
      let battle_rating ← (match battle_type with
        | .arcade => Except.ok vehicle.battle_rating.arcade
        | .realistic => Except.ok vehicle.battle_rating.realistic
        | .simulation => Except.ok vehicle.battle_rating.simulation
        | .unknown => Except.error ParseError.unknownBattleType)
      let others ← modeRatingsE battle_type rest
      pure (battle_rating :: others)

/-- The vehicle-resolution and rating-selection loops of
`_get_transformed_player_battle_rating`: unresolvable lineup entries
are skipped, then the rating field matching the battle type is taken
from every resolved vehicle. -/
def battleRatingsOf (catalog : Catalog) (lineup : List String)
    (battle_type : BattleType) : Except ParseError (List ℚ) :=
  let vehicles := lineup.filterMap catalog
  modeRatingsE battle_type vehicles

/-- Python `max(battle_ratings)`: none on an empty list (TypeError). -/
def pyMax (l : List ℚ) : Option ℚ :=
  match l with
  | [] => none
  | h :: t => some (t.foldl max h)

/-- Python `min(battle_ratings)`: none on an empty list (TypeError). -/
def pyMin (l : List ℚ) : Option ℚ :=
  match l with
  | [] => none
  | h :: t => some (t.foldl min h)

/-- `compute_battle_rating_mean`: `round(sum(rs) / len(rs), 2)`; none
on an empty list (ZeroDivisionError). -/
def pyMeanRound2 (l : List ℚ) : Option ℚ :=
  match l with
  | [] => none
  | _ :: _ => some (pyRound2 (l.sum / (l.length : ℚ)))

/-- `_get_transformed_player_battle_rating` under one of the three
transform functions, with the transform's own failure on an empty
rating list surfaced as an error. -/
def getTransformedPlayerBattleRating (transform : List ℚ → Option ℚ)
    (catalog : Catalog) (lineup : List String) (battle_type : BattleType) :
    Except ParseError ℚ := do
  let battle_ratings ← battleRatingsOf catalog lineup battle_type
  match transform battle_ratings with
  | some battle_rating => .ok battle_rating
  | none => .error .emptyRatings

/-- `_get_player_battle_rating`: the maximum rating of the lineup. -/
def getPlayerBattleRating (catalog : Catalog) (lineup : List String)
    (battle_type : BattleType) : Except ParseError ℚ :=
  getTransformedPlayerBattleRating pyMax catalog lineup battle_type

/-- `_get_player_min_battle_rating`: the minimum rating of the lineup. -/
def getPlayerMinBattleRating (catalog : Catalog) (lineup : List String)
    (battle_type : BattleType) : Except ParseError ℚ :=
  getTransformedPlayerBattleRating pyMin catalog lineup battle_type

/-- `_get_player_mean_battle_rating`: the mean rating of the lineup,
rounded to 2 decimal places. -/
def getPlayerMeanBattleRating (catalog : Catalog) (lineup : List String)
    (battle_type : BattleType) : Except ParseError ℚ :=
  getTransformedPlayerBattleRating pyMeanRound2 catalog lineup battle_type

/-- `_create_player_from_json`: build one Player from its identity
entry and stat row; platform, country and rating resolution failures
raise (and therefore surface as errors of the whole decode). -/
def createPlayerFromJson (catalog : Catalog) (player_info : PlayerInfo)
    (player_data : PlayerData) (battle_type : BattleType) :
    Except ParseError Player :=
  let user_id := (player_info.id).getD ""
  let squadron_id0 := (player_info.clanId).getD ""
  let squadron_tag0 := (player_info.clanTag).getD ""
  let username := (player_info.name).getD ""
  let platform := (player_info.platform).getD ""
  match resolvePlatform platform with
  | none => .error .unknownPlatform
  | some platform_type =>
    match get_country_by_name ((player_info.country).getD "") with
    | none => .error .unknownCountry
    | some country =>
      let lineup := player_info.crafts.map Prod.snd
      do
        let battle_rating ← getPlayerBattleRating catalog lineup battle_type
        let min_battle_rating ← getPlayerMinBattleRating catalog lineup battle_type
        let mean_battle_rating ← getPlayerMeanBattleRating catalog lineup battle_type
        pure {
          user_id := user_id
          username := takeBeforeAt username
          squadron_id := if squadron_id0 == "-1" then none else some squadron_id0
          squadron_tag := if squadron_tag0 == "" then none else some squadron_tag0
          platform := platform
          platform_type := platform_type
          country := country
          team := player_data.team
          squad := player_data.squadId
          auto_squad := (player_data.autoSquad).getD 1 != 0
          tier := player_info.tier
          rank := player_info.rank
          m_rank := player_info.mrank
          wait_time := (player_info.wait_time).getD 0
          battle_rating := battle_rating
          min_battle_rating := min_battle_rating
          mean_battle_rating := mean_battle_rating
          kills := {
            air := (player_data.kills).getD 0
            ground := (player_data.groundKills).getD 0
            naval := (player_data.navalKills).getD 0
            team := (player_data.teamKills).getD 0
            ai_air := (player_data.aiKills).getD 0
            ai_ground := (player_data.aiGroundKills).getD 0
            ai_naval := (player_data.aiNavalKills).getD 0 }
          assists := (player_data.assists).getD 0
          deaths := (player_data.deaths).getD 0
          capture_zone := (player_data.captureZone).getD 0
          damage_zone := (player_data.damageZone).getD 0
          score := (player_data.score).getD 0
          award_damage := (player_data.awardDamage).getD 0
          missile_evades := (player_data.missileEvades).getD 0
          lineup := lineup
          is_premium := is_vehicle_premium catalog lineup }

/-- The join loop of `_parse_results`: for each stat row, scan the
identity table for the first entry whose `id` matches the row's
`userId`; unmatched rows are skipped (the source logs a warning),
matched rows are built with `_create_player_from_json`, whose
failures propagate and end the loop. -/
def buildPlayers (catalog : Catalog) (battle_type : BattleType)
    (players_info : List (String × PlayerInfo)) :
    List PlayerData → Except ParseError (List Player)
  | [] => .ok []
  | player_data :: rest =>
    let user_id := (player_data.userId).getD ""
    match players_info.find? (fun kv => (kv.2.id).getD "" == user_id) with
    | some kv => do
        let player ← createPlayerFromJson catalog kv.2 player_data battle_type
        let others ← buildPlayers catalog battle_type players_info rest
        pure (player :: others)
    | none => buildPlayers catalog battle_type players_info rest

/-- `_parse_results`: status and time-played defaults, then the
id-based join of stat rows against the identity table. -/
def parseResults (catalog : Catalog) (battle_type : BattleType)
    (results : Results) : Except ParseError (String × ℚ × List Player) :=
  let status := (results.status).getD "left"
  let time_played := (results.timePlayed).getD 0
  let players_array := (results.player).getD []
  let ui_scripts_data := (results.uiScriptsData).getD {}
  let players_info := (ui_scripts_data.playersInfo).getD []
  do
    let players ← buildPlayers catalog battle_type players_info players_array
    pure (status, time_played, players)

/-- The typed fields `parse_replay_data` decodes from the fixed
binary header (plus the results-blob offset it keeps locally). -/
structure Header where
  version : Nat
  level : List Nat
  level_settings : List Nat
  environment : List Nat
  visibility : List Nat
  rez_offset : Nat
  battle_type : BattleType
  session_type : Nat
  session_id : Nat
  loc_name : List Nat
  start_time : Nat
  time_limit_minutes : Nat
  score_limit : Nat
  battle_class : List Nat
  battle_kill_streak : List Nat
deriving DecidableEq

/-- The assembled record: header fields plus the blob-derived status
fields, the participant list and the designated author.  (The
session id is kept numeric here; the source renders it as a lowercase
hex string, and the start time as a datetime, both injective
renderings.) -/
structure Replay extends Header where
  status : String
  time_played : ℚ
  players : List Player
  author : Player
deriving DecidableEq

/-- `ReplayParserService.MAGIC = b"\xe5\xac\x00\x10"`. -/
def MAGIC : List Nat := [0xe5, 0xac, 0x00, 0x10]

/-- The difficulty byte's low 4 bits: 0 is Arcade, 5 is Realistic,
10 is Simulation, anything else Unknown. -/
def decodeDifficulty (difficulty_byte : Nat) : BattleType :=
  let difficulty_value := difficulty_byte &&& 0x0F
  if difficulty_value = 0 then .arcade
  else if difficulty_value = 5 then .realistic
  else if difficulty_value = 10 then .simulation
  else .unknown

/-- "levels/" as bytes. -/
def LEVELS_BYTES : List Nat := [108, 101, 118, 101, 108, 115, 47]

/-- ".bin" as bytes. -/
def BIN_BYTES : List Nat := [46, 98, 105, 110]

/-- The fixed-layout header decode of `parse_replay_data` (its first
half): the magic check, then the fields at their fixed offsets.  The
source reads sequentially with a running offset; the offsets here are
the accumulated values (version 4, level 8, level settings 136, the
discarded battle-type string 396, environment 524, visibility 652,
results-blob offset 684, difficulty byte 688, session type 724,
session id 732, discarded set size 744, loc name 780, start time 908,
time limit 912, score limit 916, battle class 968, kill streak 1096).
Only the integer reads can fail on a short buffer; the string reads
tolerate truncation because Python slicing does. -/
def parseReplayHeader (data : Bytes) : Except ParseError Header :=
  if data.take 4 ≠ MAGIC then .error .invalidFormat
  else
    match readU32 data 4, readU32 data 684, readByte data 688, readByte data 724,
        readU64 data 732, readU32 data 744, readU32 data 908, readU32 data 912,
        readU32 data 916 with
    | some version, some rez_offset, some difficulty_byte, some session_type,
      some session_id, some _set_size, some start_time, some time_limit_minutes,
      some score_limit =>
        .ok {
          version := version
          level := replaceAll (replaceAll (readString data 8 128) LEVELS_BYTES [])
            BIN_BYTES []
          level_settings := readString data 136 260
          environment := readString data 524 128
          visibility := readString data 652 32
          rez_offset := rez_offset
          battle_type := decodeDifficulty difficulty_byte
          session_type := session_type
          session_id := session_id
          loc_name := readString data 780 128
          start_time := start_time
          time_limit_minutes := time_limit_minutes
          score_limit := score_limit
          battle_class := readString data 968 128
          battle_kill_streak := readString data 1096 128 }
    | _, _, _, _, _, _, _, _, _ => .error .truncated

/-- The results-blob dispatch of `parse_replay_data`: `results = {}`;
when the offset is positive the external decoder is invoked on the
bytes from the offset, and any failure is caught and logged, leaving
the empty structure. -/
def fetchResults (blk_decoder : BlkDecoder) (data : Bytes) (rez_offset : Nat) :
    Results :=
  if rez_offset > 0 then
    match blk_decoder (data.drop rez_offset) with
    | .ok results => results
    | .error _ => emptyResults
  else emptyResults

/-- The author lookup of `parse_replay_data`:
`next(player for player in replay.players if player.user_id == author_user_id)`. -/
def findAuthor (players : List Player) (author_user_id : String) : Option Player :=
  players.find? (fun player => player.user_id == author_user_id)

/-- `parse_replay_data`: header decode, results-blob dispatch,
participant build, author resolution, record assembly. -/
def parseReplayData (catalog : Catalog) (blk_decoder : BlkDecoder)
    (replay_data : Bytes) : Except ParseError Replay := do
  let header ← parseReplayHeader replay_data
  let results := fetchResults blk_decoder replay_data header.rez_offset
  let (status, time_played, players) ←
    parseResults catalog header.battle_type results
  let author_user_id := (results.authorUserId).getD ""
  match findAuthor players author_user_id with
  | some author =>
      pure {
        toHeader := header
        status := status
        time_played := time_played
        players := players
        author := author }
  | none => .error .authorNotFound

/-- The results structure a given input decodes to (for stating
properties of `parseReplayData`): empty when the header cannot be
decoded at all. -/
def decodedResults (blk_decoder : BlkDecoder) (data : Bytes) : Results :=
  match parseReplayHeader data with
  | .ok header => fetchResults blk_decoder data header.rez_offset
  | .error _ => emptyResults

/-- The per-mode rating field matching a battle type (the selection
`_get_transformed_player_battle_rating` performs per vehicle); the
Unknown case is arbitrary, the parser raises there. -/
def modeRating (battle_type : BattleType) (vehicle : Vehicle) : ℚ :=
  match battle_type with
  | .arcade => vehicle.battle_rating.arcade
  | .realistic => vehicle.battle_rating.realistic
  | .simulation => vehicle.battle_rating.simulation
  | .unknown => 0

/-- C1: the tier classifier is total and deterministic: the composed
classifier first forms `delta = round(participant_rating - match_rating, 2)`,
and every delta maps to exactly one of the five tiers, with the
boundaries closed toward Balanced: `delta ≥ 0` gives Downtier,
`-0.4 < delta < 0` gives PartialDowntier, `-0.6 ≤ delta ≤ -0.4` gives
Balanced, `-1.0 < delta < -0.6` gives PartialUptier, and
`delta ≤ -1.0` gives Uptier. -/
theorem c1_tier_classifier_table :
    (∀ pr mr : ℚ, get_battle_rating_tier pr mr =
        get_battle_rating_tier_from_delta (pyRound2 (pr - mr))) ∧
    (∀ delta : ℚ,
      (get_battle_rating_tier_from_delta delta = .downtier ↔ 0 ≤ delta) ∧
      (get_battle_rating_tier_from_delta delta = .semiDowntier ↔
        -0.4 < delta ∧ delta < 0) ∧
      (get_battle_rating_tier_from_delta delta = .balanced ↔
        -0.6 ≤ delta ∧ delta ≤ -0.4) ∧
      (get_battle_rating_tier_from_delta delta = .semiUptier ↔
        -1.0 < delta ∧ delta < -0.6) ∧
      (get_battle_rating_tier_from_delta delta = .uptier ↔ delta ≤ -1.0)) := by
  refine ⟨fun pr mr => rfl, fun d => ?_⟩
  unfold get_battle_rating_tier_from_delta
  split_ifs with h1 h2 h3 h4
  · refine ⟨by simpa using h1, ?_, ?_, ?_, ?_⟩ <;>
      · simp only [reduceCtorEq, false_iff, not_and, not_le, not_lt]
        first
          | (intro h; linarith)
          | (intro h h2; linarith)
          | linarith
  · refine ⟨?_, by simpa [and_comm] using h2, ?_, ?_, ?_⟩ <;>
      · simp only [reduceCtorEq, false_iff, not_and, not_le, not_lt]
        first
          | (intro h; linarith [h2.1, h2.2])
          | (intro h h'; linarith [h2.1, h2.2])
          | linarith [h2.1, h2.2]
  · refine ⟨?_, ?_, by simpa [and_comm] using h3, ?_, ?_⟩ <;>
      · simp only [reduceCtorEq, false_iff, not_and, not_le, not_lt]
        first
          | (intro h; linarith [h3.1, h3.2])
          | (intro h h'; linarith [h3.1, h3.2])
          | linarith [h3.1, h3.2]
  · refine ⟨?_, ?_, ?_, by simpa [and_comm] using h4, ?_⟩ <;>
      · simp only [reduceCtorEq, false_iff, not_and, not_le, not_lt]
        first
          | (intro h; linarith [h4.1, h4.2])
          | (intro h h'; linarith [h4.1, h4.2])
          | linarith [h4.1, h4.2]
  · push_neg at h1 h2 h3 h4
    have ha : d ≤ -0.4 := h2 h1
    have hb : d < -0.6 := h3 ha
    have hd : d ≤ -1.0 := h4 hb
    refine ⟨?_, ?_, ?_, ?_, by simpa using hd⟩ <;>
      · simp only [reduceCtorEq, false_iff, not_and, not_le, not_lt]
        first
          | (intro h; linarith)
          | (intro h h'; linarith)
          | linarith

/-- Binding a successful Except value just applies the continuation. -/
theorem ok_bind {ε α β : Type} (a : α) (f : α → Except ε β) :
    (Except.ok a >>= f : Except ε β) = f a := rfl

/-- Binding a failed Except value keeps the error. -/
theorem error_bind {ε α β : Type} (e : ε) (f : α → Except ε β) :
    (Except.error e >>= f : Except ε β) = .error e := rfl

/-- The initial value is below a `foldl max`. -/
theorem foldl_max_le_init {α : Type} [LinearOrder α] (l : List α) (a : α) :
    a ≤ l.foldl max a := by
  induction l generalizing a with
  | nil => exact le_refl a
  | cons b t ih => exact le_trans (le_max_left a b) (ih (max a b))

/-- Every member is below a `foldl max`. -/
theorem mem_le_foldl_max {α : Type} [LinearOrder α] (l : List α) (a x : α)
    (hx : x ∈ l) : x ≤ l.foldl max a := by
  induction l generalizing a with
  | nil => cases hx
  | cons b t ih =>
    rcases List.mem_cons.mp hx with rfl | hmem
    · exact le_trans (le_max_right a x) (foldl_max_le_init t (max a x))
    · exact ih (max a b) hmem

/-- A `foldl max` is the initial value or a member. -/
theorem foldl_max_mem {α : Type} [LinearOrder α] (l : List α) (a : α) :
    l.foldl max a = a ∨ l.foldl max a ∈ l := by
  induction l generalizing a with
  | nil => exact Or.inl rfl
  | cons b t ih =>
    rcases ih (max a b) with h | h
    · rcases max_cases a b with ⟨hm, _⟩ | ⟨hm, _⟩
      · left
        rw [List.foldl_cons, h, hm]
      · right
        rw [List.foldl_cons, h, hm]
        exact List.mem_cons_self b t
    · right
      exact List.mem_cons_of_mem b h

/-- A `foldl min` is below the initial value. -/
theorem foldl_min_le_init {α : Type} [LinearOrder α] (l : List α) (a : α) :
    l.foldl min a ≤ a := by
  induction l generalizing a with
  | nil => exact le_refl a
  | cons b t ih => exact le_trans (ih (min a b)) (min_le_left a b)

/-- A `foldl min` is below every member. -/
theorem foldl_min_le_mem {α : Type} [LinearOrder α] (l : List α) (a x : α)
    (hx : x ∈ l) : l.foldl min a ≤ x := by
  induction l generalizing a with
  | nil => cases hx
  | cons b t ih =>
    rcases List.mem_cons.mp hx with rfl | hmem
    · exact le_trans (foldl_min_le_init t (min a x)) (min_le_right a x)
    · exact ih (min a b) hmem

/-- A `foldl min` is the initial value or a member. -/
theorem foldl_min_mem {α : Type} [LinearOrder α] (l : List α) (a : α) :
    l.foldl min a = a ∨ l.foldl min a ∈ l := by
  induction l generalizing a with
  | nil => exact Or.inl rfl
  | cons b t ih =>
    rcases ih (min a b) with h | h
    · rcases min_cases a b with ⟨hm, _⟩ | ⟨hm, _⟩
      · left
        rw [List.foldl_cons, h, hm]
      · right
        rw [List.foldl_cons, h, hm]
        exact List.mem_cons_self b t
    · right
      exact List.mem_cons_of_mem b h

/-- `pyMax` returns a member that bounds every member from above. -/
theorem pyMax_spec (l : List ℚ) (r : ℚ) (h : pyMax l = some r) :
    r ∈ l ∧ ∀ x ∈ l, x ≤ r := by
  cases l with
  | nil => cases h
  | cons b t =>
    have hr : r = t.foldl max b := (Option.some.inj h).symm
    subst hr
    constructor
    · rcases foldl_max_mem t b with h1 | h1
      · rw [h1]
        exact List.mem_cons_self b t
      · exact List.mem_cons_of_mem b h1
    · intro x hx
      rcases List.mem_cons.mp hx with rfl | hmem
      · exact foldl_max_le_init t x
      · exact mem_le_foldl_max t b x hmem

/-- `pyMin` returns a member that bounds every member from below. -/
theorem pyMin_spec (l : List ℚ) (r : ℚ) (h : pyMin l = some r) :
    r ∈ l ∧ ∀ x ∈ l, r ≤ x := by
  cases l with
  | nil => cases h
  | cons b t =>
    have hr : r = t.foldl min b := (Option.some.inj h).symm
    subst hr
    constructor
    · rcases foldl_min_mem t b with h1 | h1
      · rw [h1]
        exact List.mem_cons_self b t
      · exact List.mem_cons_of_mem b h1
    · intro x hx
      rcases List.mem_cons.mp hx with rfl | hmem
      · exact foldl_min_le_init t x
      · exact foldl_min_le_mem t b x hmem

/-- With a known battle type, the rating-selection loop succeeds and
selects exactly the matching per-mode field of every vehicle. -/
theorem modeRatingsE_eq (battle_type : BattleType) (vs : List Vehicle)
    (h : battle_type ≠ .unknown) :
    modeRatingsE battle_type vs = .ok (vs.map (modeRating battle_type)) := by
  induction vs with
  | nil => rfl
  | cons v t ih =>
    cases battle_type with
    | unknown => exact absurd rfl h
    | arcade =>
      simp only [modeRatingsE, ok_bind, ih, List.map_cons, modeRating]
      rfl
    | realistic =>
      simp only [modeRatingsE, ok_bind, ih, List.map_cons, modeRating]
      rfl
    | simulation =>
      simp only [modeRatingsE, ok_bind, ih, List.map_cons, modeRating]
      rfl

/-- With a known battle type, the resolved rating list is exactly the
matching per-mode field of every resolvable lineup entry. -/
theorem battleRatingsOf_eq (catalog : Catalog) (lineup : List String)
    (battle_type : BattleType) (h : battle_type ≠ .unknown) :
    battleRatingsOf catalog lineup battle_type =
      .ok ((lineup.filterMap catalog).map (modeRating battle_type)) :=
  modeRatingsE_eq battle_type (lineup.filterMap catalog) h

/-- C2: for every participant whose equipment list resolves to a
non-empty list of catalog entries, the three rating figures are
computed from the per-mode ratings matching the active difficulty of
exactly the resolvable equipment ids (unresolvable ids skipped):
`battle_rating` is the maximum, `min_battle_rating` the minimum, and
`mean_battle_rating` the arithmetic mean rounded to 2 decimal
places. -/
theorem c2_rating_figures (catalog : Catalog) (lineup : List String)
    (battle_type : BattleType) (brs : List ℚ)
    (hbt : battle_type ≠ .unknown)
    (hbrs : brs = (lineup.filterMap catalog).map (modeRating battle_type))
    (hne : brs ≠ []) :
    (∃ r, getPlayerBattleRating catalog lineup battle_type = .ok r ∧
      r ∈ brs ∧ ∀ x ∈ brs, x ≤ r) ∧
    (∃ r, getPlayerMinBattleRating catalog lineup battle_type = .ok r ∧
      r ∈ brs ∧ ∀ x ∈ brs, r ≤ x) ∧
    getPlayerMeanBattleRating catalog lineup battle_type =
      .ok (pyRound2 (brs.sum / (brs.length : ℚ))) := by
  have hok : battleRatingsOf catalog lineup battle_type = .ok brs := by
    rw [hbrs]
    exact battleRatingsOf_eq catalog lineup battle_type hbt
  obtain ⟨b, t, hcons⟩ : ∃ b t, brs = b :: t := by
    cases hb : brs with
    | nil => exact absurd hb hne
    | cons b t => exact ⟨b, t, rfl⟩
  refine ⟨⟨t.foldl max b, ?_, ?_⟩, ⟨t.foldl min b, ?_, ?_⟩, ?_⟩
  · unfold getPlayerBattleRating getTransformedPlayerBattleRating
    rw [hok, ok_bind, hcons]
    rfl
  · have := pyMax_spec brs (t.foldl max b) (by rw [hcons]; rfl)
    exact this
  · unfold getPlayerMinBattleRating getTransformedPlayerBattleRating
    rw [hok, ok_bind, hcons]
    rfl
  · have := pyMin_spec brs (t.foldl min b) (by rw [hcons]; rfl)
    exact this
  · unfold getPlayerMeanBattleRating getTransformedPlayerBattleRating
    rw [hok, ok_bind, hcons]
    rfl

/-- A premium test vehicle for concrete instantiations. -/
def testVehicleA : Vehicle :=
  { battle_rating := { arcade := 1, realistic := 2.3, simulation := 3 },
    is_premium := true }

/-- A non-premium test vehicle for concrete instantiations. -/
def testVehicleB : Vehicle :=
  { battle_rating := { arcade := 2, realistic := 1.7, simulation := 4 },
    is_premium := false }

/-- A concrete two-vehicle catalog. -/
def testCatalog : Catalog := fun internal_name =>
  if internal_name == "veh_a" then some testVehicleA
  else if internal_name == "veh_b" then some testVehicleB
  else none

theorem c2_rating_figures_witness :
    (∃ r, getPlayerBattleRating testCatalog ["veh_a", "missing", "veh_b"]
        .realistic = .ok r ∧
      r ∈ [(2.3 : ℚ), 1.7] ∧ ∀ x ∈ [(2.3 : ℚ), 1.7], x ≤ r) ∧
    (∃ r, getPlayerMinBattleRating testCatalog ["veh_a", "missing", "veh_b"]
        .realistic = .ok r ∧
      r ∈ [(2.3 : ℚ), 1.7] ∧ ∀ x ∈ [(2.3 : ℚ), 1.7], r ≤ x) ∧
    getPlayerMeanBattleRating testCatalog ["veh_a", "missing", "veh_b"]
        .realistic =
      .ok (pyRound2 (([(2.3 : ℚ), 1.7].sum) / (([(2.3 : ℚ), 1.7].length : ℚ)))) :=
  c2_rating_figures testCatalog ["veh_a", "missing", "veh_b"] .realistic
    [2.3, 1.7] (by decide) (by rfl) (by decide)

/-- C3 (amended): a participant whose raw platform string matches
none of the ordered substrings is a fatal error: the participant
build stops at that row with UnknownPlatform, the remaining rows are
not built, and the error propagates out of the decode (the source has
no handler between `_create_player_from_json` and
`parse_replay_data`).  Stated for the first stat row: whatever the
remaining rows are, no participant list is produced. -/
theorem c3_unknown_platform_fatal (catalog : Catalog) (battle_type : BattleType)
    (results : Results) (player_data : PlayerData) (rest : List PlayerData)
    (key : String) (player_info : PlayerInfo)
    (hrows : (results.player).getD [] = player_data :: rest)
    (hfind : ((((results.uiScriptsData).getD {}).playersInfo).getD []).find?
        (fun kv => (kv.2.id).getD "" == (player_data.userId).getD "") =
      some (key, player_info))
    (hplat : resolvePlatform ((player_info.platform).getD "") = none) :
    parseResults catalog battle_type results = .error .unknownPlatform := by
  have hcreate : createPlayerFromJson catalog player_info player_data battle_type =
      .error .unknownPlatform := by
    unfold createPlayerFromJson
    simp only [hplat]
  unfold parseResults
  rw [hrows]
  simp only [buildPlayers, hfind, hcreate, error_bind]

/-- Identity entry with a platform string ("atari") matching none of
the substrings. -/
def c3infoBad : PlayerInfo :=
  { id := some "1", name := some "bad@live", platform := some "atari",
    country := some "USA", crafts := [("1", "veh_a")] }

/-- Identity entry that resolves fine on its own. -/
def c3infoGood : PlayerInfo :=
  { id := some "2", name := some "good", platform := some "pc",
    country := some "USA", crafts := [("1", "veh_b")] }

/-- Stat row joining to `c3infoBad`. -/
def c3rowBad : PlayerData := { userId := some "1" }

/-- Stat row joining to `c3infoGood`. -/
def c3rowGood : PlayerData := { userId := some "2" }

/-- Blob with one unresolvable-platform participant followed by one
fully resolvable participant. -/
def c3results : Results :=
  { player := some [c3rowBad, c3rowGood],
    uiScriptsData := some { playersInfo := some [("0", c3infoBad), ("1", c3infoGood)] },
    authorUserId := some "2" }

/-- A 920-byte buffer with a valid magic signature and a positive
results-blob offset (4) at offset 684. -/
def c3buf : Bytes :=
  MAGIC ++ List.replicate 680 0 ++ [4, 0, 0, 0] ++ List.replicate 232 0

set_option maxRecDepth 100000 in
theorem c3_counterexample :
    resolvePlatform "atari" = none ∧
    ((createPlayerFromJson testCatalog c3infoGood c3rowGood
        .arcade).toOption).isSome = true ∧
    parseResults testCatalog .arcade c3results = .error .unknownPlatform ∧
    parseReplayData testCatalog (fun _ => .ok c3results) c3buf =
      .error .unknownPlatform :=
  ⟨rfl, rfl, rfl, rfl⟩

theorem c3_unknown_platform_fatal_witness :
    parseResults testCatalog .arcade c3results = .error .unknownPlatform :=
  c3_unknown_platform_fatal testCatalog .arcade c3results c3rowBad [c3rowGood]
    "0" c3infoBad rfl rfl rfl

/-- C4: assembly designates as author the participant whose user
identifier equals the blob-reported author identifier, the author is
always a member of the participant sequence of the returned record,
and when no participant's identifier equals the author identifier the
decode fails with AuthorNotFound (the source's `next(...)` raises
StopIteration) and no record is returned. -/
theorem c4_author_resolution :
    (∀ (catalog : Catalog) (blk_decoder : BlkDecoder) (data : Bytes) (r : Replay),
      parseReplayData catalog blk_decoder data = .ok r →
        r.author ∈ r.players ∧
        r.author.user_id =
          ((decodedResults blk_decoder data).authorUserId).getD "") ∧
    (∀ (catalog : Catalog) (blk_decoder : BlkDecoder) (data : Bytes)
      (header : Header) (stp : String × ℚ × List Player),
      parseReplayHeader data = .ok header →
      parseResults catalog header.battle_type
        (fetchResults blk_decoder data header.rez_offset) = .ok stp →
      (∀ p ∈ stp.2.2, p.user_id ≠
        ((fetchResults blk_decoder data header.rez_offset).authorUserId).getD "") →
      parseReplayData catalog blk_decoder data = .error .authorNotFound) := by
  constructor
  · intro catalog blk_decoder data r h
    unfold parseReplayData at h
    cases hh : parseReplayHeader data with
    | error e =>
      rw [hh, error_bind] at h
      exact Except.noConfusion h
    | ok header =>
      rw [hh, ok_bind] at h
      dsimp only at h
      cases hr : parseResults catalog header.battle_type
          (fetchResults blk_decoder data header.rez_offset) with
      | error e =>
        rw [hr, error_bind] at h
        exact Except.noConfusion h
      | ok stp =>
        rw [hr, ok_bind] at h
        obtain ⟨status, time_played, players⟩ := stp
        dsimp only at h
        cases hf : findAuthor players
            ((fetchResults blk_decoder data header.rez_offset).authorUserId.getD
              "") with
        | none =>
          rw [hf] at h
          exact Except.noConfusion h
        | some author =>
          rw [hf] at h
          have hrec := Except.ok.inj h
          have hdec : decodedResults blk_decoder data =
              fetchResults blk_decoder data header.rez_offset := by
            unfold decodedResults
            rw [hh]
          unfold findAuthor at hf
          have hmem := List.mem_of_find?_eq_some hf
          have hbeq := List.find?_some hf
          subst hrec
          refine ⟨hmem, ?_⟩
          rw [hdec]
          exact eq_of_beq hbeq
  · intro catalog blk_decoder data header stp hh hr hnone
    unfold parseReplayData
    rw [hh, ok_bind]
    dsimp only
    rw [hr, ok_bind]
    obtain ⟨status, time_played, players⟩ := stp
    dsimp only
    have hf : findAuthor players
        ((fetchResults blk_decoder data header.rez_offset).authorUserId.getD "") =
        none := by
      unfold findAuthor
      apply List.find?_eq_none.mpr
      intro p hp
      simpa using hnone p hp
    rw [hf]

/-- A 920-byte all-zero buffer behind a valid magic signature. -/
def zeroBuf920 : Bytes := MAGIC ++ List.replicate 916 0

/-- The header `zeroBuf920` decodes to. -/
def zeroHeader : Header :=
  { version := 0, level := [], level_settings := [], environment := [],
    visibility := [], rez_offset := 0, battle_type := .arcade,
    session_type := 0, session_id := 0, loc_name := [], start_time := 0,
    time_limit_minutes := 0, score_limit := 0, battle_class := [],
    battle_kill_streak := [] }

/-- A blk decoder collaborator that always succeeds with an empty
structure. -/
def trivialDecoder : BlkDecoder := fun _ => .ok emptyResults

/-- A catalog resolving nothing. -/
def emptyCatalog : Catalog := fun _ => none

set_option maxRecDepth 100000 in
theorem c4_author_resolution_witness :
    parseReplayData emptyCatalog trivialDecoder zeroBuf920 =
      .error .authorNotFound :=
  c4_author_resolution.2 emptyCatalog trivialDecoder zeroBuf920 zeroHeader
    ("left", 0, []) (by rfl) (by rfl)
    (by intro p hp; exact absurd hp (List.not_mem_nil p))

/-- C5: for every input buffer whose first 4 bytes do not equal the
magic signature, the decode fails immediately with InvalidFormat —
independently of the rest of the buffer and of both collaborators, so
no further field is read and no partial result is returned. -/
theorem c5_invalid_magic (catalog : Catalog) (blk_decoder : BlkDecoder)
    (replay_data : Bytes) (h : replay_data.take 4 ≠ MAGIC) :
    parseReplayData catalog blk_decoder replay_data = .error .invalidFormat := by
  have hh : parseReplayHeader replay_data = .error .invalidFormat := by
    unfold parseReplayHeader
    rw [if_pos h]
  unfold parseReplayData
  rw [hh, error_bind]

theorem c5_invalid_magic_witness :
    ([0, 0, 0, 0] : Bytes).take 4 ≠ MAGIC ∧
    parseReplayData emptyCatalog trivialDecoder [0, 0, 0, 0] =
      .error .invalidFormat :=
  ⟨by decide, c5_invalid_magic emptyCatalog trivialDecoder [0, 0, 0, 0] (by decide)⟩

/-- A 1223-byte buffer (shorter than the 1224-byte full layout) whose
header nevertheless decodes completely. -/
def c6buf : Bytes := MAGIC ++ List.replicate 1219 0

set_option maxRecDepth 400000 in
theorem c6_counterexample :
    c6buf.length < 1224 ∧ (parseReplayHeader c6buf).isOk = true := by
  constructor
  · decide
  · rfl

/-- C6 (amended): with a valid magic signature, header decoding fails
with a truncation error exactly when the buffer is shorter than 920
bytes — the last fixed-offset integer field (the score limit) ends at
byte 920, and the two trailing 128-byte string fields (battle class at
968 and kill streak at 1096, which push the full layout to 1224 bytes)
tolerate truncation because Python slicing does, so buffers of length
920..1223 decode successfully despite being shorter than 1224. -/
theorem c6_truncation_cutoff (data : Bytes) (hmagic : data.take 4 = MAGIC) :
    (parseReplayHeader data = .error .truncated ↔ data.length < 920) := by
  unfold parseReplayHeader
  rw [if_neg (fun hne => hne hmagic)]
  by_cases hlen : 920 ≤ data.length
  · have e1 : readU32 data 4 = some (leNat ((data.drop 4).take 4)) := by
      unfold readU32
      rw [if_pos (by omega)]
    have e2 : readU32 data 684 = some (leNat ((data.drop 684).take 4)) := by
      unfold readU32
      rw [if_pos (by omega)]
    have e3 : readByte data 688 = some (data.getD 688 0) := by
      unfold readByte
      rw [if_pos (by omega)]
    have e4 : readByte data 724 = some (data.getD 724 0) := by
      unfold readByte
      rw [if_pos (by omega)]
    have e5 : readU64 data 732 = some (leNat ((data.drop 732).take 8)) := by
      unfold readU64
      rw [if_pos (by omega)]
    have e6 : readU32 data 744 = some (leNat ((data.drop 744).take 4)) := by
      unfold readU32
      rw [if_pos (by omega)]
    have e7 : readU32 data 908 = some (leNat ((data.drop 908).take 4)) := by
      unfold readU32
      rw [if_pos (by omega)]
    have e8 : readU32 data 912 = some (leNat ((data.drop 912).take 4)) := by
      unfold readU32
      rw [if_pos (by omega)]
    have e9 : readU32 data 916 = some (leNat ((data.drop 916).take 4)) := by
      unfold readU32
      rw [if_pos (by omega)]
    rw [e1, e2, e3, e4, e5, e6, e7, e8, e9]
    exact ⟨fun h => Except.noConfusion h, fun h => absurd h (by omega)⟩
  · have h920 : data.length < 920 := by omega
    refine ⟨fun _ => h920, fun _ => ?_⟩
    rcases e1 : readU32 data 4 with _ | v1
    · rfl
    rcases e2 : readU32 data 684 with _ | v2
    · rfl
    rcases e3 : readByte data 688 with _ | v3
    · rfl
    rcases e4 : readByte data 724 with _ | v4
    · rfl
    rcases e5 : readU64 data 732 with _ | v5
    · rfl
    rcases e6 : readU32 data 744 with _ | v6
    · rfl
    rcases e7 : readU32 data 908 with _ | v7
    · rfl
    rcases e8 : readU32 data 912 with _ | v8
    · rfl
    rcases e9 : readU32 data 916 with _ | v9
    · rfl
    exfalso
    unfold readU32 at e9
    rw [if_neg (by omega)] at e9
    exact Option.noConfusion e9

set_option maxRecDepth 100000 in
theorem c6_truncation_cutoff_witness :
    (MAGIC ++ List.replicate 100 (0 : Nat)).take 4 = MAGIC ∧
    (parseReplayHeader (MAGIC ++ List.replicate 100 0) = .error .truncated ↔
      (MAGIC ++ List.replicate 100 (0 : Nat)).length < 920) :=
  ⟨by decide, c6_truncation_cutoff (MAGIC ++ List.replicate 100 0) (by decide)⟩

/-- A blk decoder collaborator that always fails (non-zero exit,
timeout, or malformed output). -/
def failingDecoder : BlkDecoder := fun _ => .error ()

/-- C7 (amended): when the header's results-blob offset is 0, or the
external decoder collaborator fails, the sub-blob stage continues
with the empty associative structure and the defaults status "left"
and time played 0.0 are applied to the in-progress record — but the
empty structure yields no participants, so the subsequent author
resolution fails and the overall decode aborts with AuthorNotFound;
no assembled record is returned. -/
theorem c7_empty_blob_defaults (catalog : Catalog) (blk_decoder : BlkDecoder)
    (data : Bytes) (header : Header)
    (hh : parseReplayHeader data = .ok header)
    (hfail : header.rez_offset = 0 ∨
      ∃ e, blk_decoder (data.drop header.rez_offset) = .error e) :
    fetchResults blk_decoder data header.rez_offset = emptyResults ∧
    parseResults catalog header.battle_type emptyResults = .ok ("left", 0, []) ∧
    parseReplayData catalog blk_decoder data = .error .authorNotFound := by
  have hfetch : fetchResults blk_decoder data header.rez_offset = emptyResults := by
    unfold fetchResults
    rcases hfail with h0 | ⟨e, he⟩
    · rw [h0]
      rfl
    · by_cases h0 : header.rez_offset > 0
      · rw [if_pos h0, he]
      · rw [if_neg h0]
  have hpr : parseResults catalog header.battle_type emptyResults =
      .ok ("left", 0, []) := rfl
  refine ⟨hfetch, hpr, ?_⟩
  unfold parseReplayData
  rw [hh, ok_bind]
  dsimp only
  rw [hfetch, hpr, ok_bind]
  rfl

set_option maxRecDepth 100000 in
theorem c7_counterexample :
    (parseReplayHeader c3buf).toOption.map Header.rez_offset = some 4 ∧
    parseReplayData emptyCatalog failingDecoder c3buf = .error .authorNotFound :=
  ⟨rfl, rfl⟩

set_option maxRecDepth 100000 in
theorem c7_empty_blob_defaults_witness :
    fetchResults trivialDecoder zeroBuf920 zeroHeader.rez_offset = emptyResults ∧
    parseResults emptyCatalog zeroHeader.battle_type emptyResults =
      .ok ("left", 0, []) ∧
    parseReplayData emptyCatalog trivialDecoder zeroBuf920 =
      .error .authorNotFound :=
  c7_empty_blob_defaults emptyCatalog trivialDecoder zeroBuf920 zeroHeader
    (by rfl) (Or.inl rfl)

/-- When every stat row that joins to an identity entry also resolves
successfully, the participant build succeeds and returns exactly the
players of the matched rows, in row order; unmatched rows contribute
nothing. -/
theorem buildPlayers_eq_filterMap (catalog : Catalog) (battle_type : BattleType)
    (players_info : List (String × PlayerInfo)) (rows : List PlayerData)
    (hres : ∀ player_data ∈ rows, ∀ kv,
      players_info.find?
          (fun entry => (entry.2.id).getD "" == (player_data.userId).getD "") =
        some kv →
      (createPlayerFromJson catalog kv.2 player_data battle_type).isOk = true) :
    buildPlayers catalog battle_type players_info rows =
      .ok (rows.filterMap (fun player_data =>
        (players_info.find?
            (fun entry => (entry.2.id).getD "" == (player_data.userId).getD "")).bind
          (fun kv =>
            (createPlayerFromJson catalog kv.2 player_data battle_type).toOption))) := by
  induction rows with
  | nil => rfl
  | cons row rest ih =>
    have hres' : ∀ player_data ∈ rest, ∀ kv,
        players_info.find?
            (fun entry => (entry.2.id).getD "" == (player_data.userId).getD "") =
          some kv →
        (createPlayerFromJson catalog kv.2 player_data battle_type).isOk = true :=
      fun pd hpd => hres pd (List.mem_cons_of_mem row hpd)
    simp only [buildPlayers, List.filterMap_cons]
    cases hfind : players_info.find?
        (fun entry => (entry.2.id).getD "" == (row.userId).getD "") with
    | none =>
      simp only [hfind, Option.bind]
      exact ih hres'
    | some kv =>
      have hok := hres row (List.mem_cons_self row rest) kv hfind
      cases hcreate : createPlayerFromJson catalog kv.2 row battle_type with
      | error e =>
        rw [hcreate] at hok
        exact Bool.noConfusion hok
      | ok p =>
        simp only [hfind, hcreate, ok_bind, Option.bind, Except.toOption]
        rw [ih hres', ok_bind]
        rfl

/-- C8 (amended): participant building joins stat rows to the
identity table on the shared user id; every stat row whose id matches
no identity-table entry is skipped with a warning and is absent from
the final record, and every matching stat row produces a participant
provided its resolution succeeds — when a matched row fails to
resolve, the whole decode aborts instead (no participant list is
produced at all). -/
theorem c8_join_semantics (catalog : Catalog) (battle_type : BattleType)
    (results : Results)
    (hres : ∀ player_data ∈ (results.player).getD [], ∀ kv,
      ((((results.uiScriptsData).getD {}).playersInfo).getD []).find?
          (fun entry => (entry.2.id).getD "" == (player_data.userId).getD "") =
        some kv →
      (createPlayerFromJson catalog kv.2 player_data battle_type).isOk = true) :
    parseResults catalog battle_type results =
      .ok ((results.status).getD "left", (results.timePlayed).getD 0,
        ((results.player).getD []).filterMap (fun player_data =>
          (((((results.uiScriptsData).getD {}).playersInfo).getD []).find?
              (fun entry =>
                (entry.2.id).getD "" == (player_data.userId).getD "")).bind
            (fun kv =>
              (createPlayerFromJson catalog kv.2 player_data
                battle_type).toOption))) := by
  unfold parseResults
  dsimp only
  rw [buildPlayers_eq_filterMap catalog battle_type
    ((((results.uiScriptsData).getD {}).playersInfo).getD [])
    ((results.player).getD []) hres]
  rfl

/-- Stat row joining to `c8info`. -/
def c8row : PlayerData := { userId := some "9" }

/-- Identity entry whose platform ("amiga") matches no substring. -/
def c8info : PlayerInfo :=
  { id := some "9", name := some "x", platform := some "amiga",
    country := some "USA", crafts := [("1", "veh_a")] }

/-- Blob with a single stat row that joins successfully but fails to
resolve. -/
def c8results : Results :=
  { player := some [c8row],
    uiScriptsData := some { playersInfo := some [("0", c8info)] } }

theorem c8_counterexample :
    ([("0", c8info)].find?
        (fun entry => (entry.2.id).getD "" == ((c8row.userId).getD "")) =
      some ("0", c8info)) ∧
    parseResults emptyCatalog .arcade c8results = .error .unknownPlatform :=
  ⟨rfl, rfl⟩

/-- Blob with one resolvable matched row and one unmatched row. -/
def c8wResults : Results :=
  { player := some [c3rowGood, { userId := some "404" }],
    uiScriptsData := some { playersInfo := some [("1", c3infoGood)] },
    status := some "won", timePlayed := some 37.5 }

theorem c8_join_semantics_witness :
    parseResults testCatalog .arcade c8wResults =
      .ok ((c8wResults.status).getD "left", (c8wResults.timePlayed).getD 0,
        ((c8wResults.player).getD []).filterMap (fun player_data =>
          (((((c8wResults.uiScriptsData).getD {}).playersInfo).getD []).find?
              (fun entry =>
                (entry.2.id).getD "" == (player_data.userId).getD "")).bind
            (fun kv =>
              (createPlayerFromJson testCatalog kv.2 player_data
                .arcade).toOption))) :=
  c8_join_semantics testCatalog .arcade c8wResults (by
    intro player_data hpd kv hkv
    rcases List.mem_cons.mp hpd with rfl | hpd2
    · have hkv2 : some ("1", c3infoGood) = some kv := by
        rw [← hkv]
        rfl
      have hkv3 : kv = ("1", c3infoGood) := (Option.some.inj hkv2).symm
      subst hkv3
      rfl
    · rcases List.mem_cons.mp hpd2 with rfl | hpd3
      · have hnone : (some ("1", c3infoGood) : Option (String × PlayerInfo)) ≠
            none := by
          exact fun hc => Option.noConfusion hc
        rw [show ((((c8wResults.uiScriptsData).getD {}).playersInfo).getD
            []).find? (fun entry => (entry.2.id).getD "" ==
            ((({ userId := some "404" } : PlayerData).userId).getD "")) =
            (none : Option (String × PlayerInfo)) from rfl] at hkv
        exact Option.noConfusion hkv
      · exact absurd hpd3 (List.not_mem_nil player_data))

/-- Cutting a byte list at its first null equals taking the longest
null-free front. -/
theorem findNull_take (l : List Nat) :
    (match findNull l with
     | some i => l.take i
     | none => l) = l.takeWhile (fun b => b != 0) := by
  induction l with
  | nil => rfl
  | cons b t ih =>
    by_cases hb : b = 0
    · subst hb
      rfl
    · have hbeq : (b == 0) = false := by
        simpa using hb
      have hfn : findNull (b :: t) = (findNull t).map (fun i => i + 1) := by
        simp [findNull, hbeq]
      have htw : (b :: t).takeWhile (fun x => x != 0) =
          b :: t.takeWhile (fun x => x != 0) := by
        simp [List.takeWhile_cons, hbeq, hb]
      rw [hfn, htw]
      cases hf : findNull t with
      | none =>
        rw [hf] at ih
        exact congrArg (List.cons b) ih
      | some i =>
        rw [hf] at ih
        exact congrArg (List.cons b) ih

/-- C9 (amended): every fixed-width string field decodes to the byte
region cut at the first null byte (trailing bytes after the null
ignored, the whole region when no null occurs); no trimming is
applied to the result. -/
theorem c9_read_string_untrimmed (data : Bytes) (off len : Nat) :
    readString data off len =
      ((data.drop off).take len).takeWhile (fun b => b != 0) := by
  unfold readString
  exact findNull_take ((data.drop off).take len)

/-- A 920-byte buffer whose visibility field (offset 652) holds the
bytes " a " (space, letter, space) before the terminating null. -/
def c9buf : Bytes :=
  MAGIC ++ List.replicate 648 0 ++ [32, 97, 32] ++ List.replicate 265 0

set_option maxRecDepth 100000 in
theorem c9_counterexample :
    (parseReplayHeader c9buf).toOption.map Header.visibility =
      some [32, 97, 32] ∧
    trimBytes [32, 97, 32] ≠ [32, 97, 32] :=
  ⟨rfl, by decide⟩

/-- C10: in every built participant, the auto-formed-squad flag
defaults to true when the stat row has no "autoSquad" key, and
otherwise equals the truthiness of the raw value: a present 0 yields
false and any non-zero value yields true. -/
theorem c10_auto_squad (catalog : Catalog) (player_info : PlayerInfo)
    (player_data : PlayerData) (battle_type : BattleType) (p : Player)
    (h : createPlayerFromJson catalog player_info player_data battle_type =
      .ok p) :
    (player_data.autoSquad = none → p.auto_squad = true) ∧
    (∀ v : Int, player_data.autoSquad = some v →
      (p.auto_squad = true ↔ v ≠ 0)) := by
  have hauto : p.auto_squad = ((player_data.autoSquad).getD 1 != 0) := by
    unfold createPlayerFromJson at h
    cases hplat : resolvePlatform ((player_info.platform).getD "") with
    | none =>
      simp only [hplat] at h
      exact Except.noConfusion h
    | some platform_type =>
      simp only [hplat] at h
      cases hc : get_country_by_name ((player_info.country).getD "") with
      | none =>
        simp only [hc] at h
        exact Except.noConfusion h
      | some country =>
        simp only [hc] at h
        cases hbr : getPlayerBattleRating catalog
            (List.map Prod.snd player_info.crafts) battle_type with
        | error e =>
          rw [hbr, error_bind] at h
          exact Except.noConfusion h
        | ok br =>
          rw [hbr, ok_bind] at h
          cases hmn : getPlayerMinBattleRating catalog
              (List.map Prod.snd player_info.crafts) battle_type with
          | error e =>
            rw [hmn, error_bind] at h
            exact Except.noConfusion h
          | ok mn =>
            rw [hmn, ok_bind] at h
            cases hme : getPlayerMeanBattleRating catalog
                (List.map Prod.snd player_info.crafts) battle_type with
            | error e =>
              rw [hme, error_bind] at h
              exact Except.noConfusion h
            | ok me =>
              rw [hme, ok_bind] at h
              have hrec := Except.ok.inj h
              rw [← hrec]
  constructor
  · intro hnone
    rw [hauto, hnone]
    rfl
  · intro v hv
    rw [hauto, hv]
    simp [Option.getD, bne_iff_ne]

/-- Identity entry resolving to PSN with one vehicle. -/
def c10info : PlayerInfo :=
  { id := some "7", name := some "x@psn", platform := some "ps4",
    country := some "Japan", crafts := [("1", "veh_a")] }

/-- Stat row with an explicit autoSquad value of 0. -/
def c10row : PlayerData := { userId := some "7", autoSquad := some 0 }

/-- The participant `c10info`/`c10row` build to under `testCatalog`
and Arcade difficulty. -/
def c10player : Player where
  user_id := "7"
  username := "x"
  squadron_id := some ""
  squadron_tag := none
  platform := "ps4"
  platform_type := .psn
  country := .japan
  team := none
  squad := none
  auto_squad := false
  tier := none
  rank := none
  m_rank := none
  wait_time := 0
  battle_rating := 1
  min_battle_rating := 1
  mean_battle_rating := 1
  kills :=
    { air := 0
      ground := 0
      naval := 0
      team := 0
      ai_air := 0
      ai_ground := 0
      ai_naval := 0 }
  assists := 0
  deaths := 0
  capture_zone := 0
  damage_zone := 0
  score := 0
  award_damage := 0
  missile_evades := 0
  lineup := ["veh_a"]
  is_premium := true

theorem c10_auto_squad_witness :
    c10row.autoSquad = some 0 ∧ (c10player.auto_squad = true ↔ (0 : Int) ≠ 0) :=
  ⟨rfl,
    (c10_auto_squad testCatalog c10info c10row .arcade c10player
      (by with_unfolding_all rfl)).2 0 rfl⟩

theorem c1_tier_classifier_table_witness :
    (get_battle_rating_tier_from_delta (-0.5) = .balanced ↔
      -0.6 ≤ (-0.5 : ℚ) ∧ (-0.5 : ℚ) ≤ -0.4) :=
  (c1_tier_classifier_table.2 (-0.5)).2.2.1
